import Mathlib

/-!
Verification development for the knodle weak-supervision toolkit.

Each Python function relevant to the checked properties is shallowly embedded
as an executable Lean definition.  Exceptions are modelled with `Except` over
an explicit error type mirroring the Python exception classes that the source
raises; machine integers are modelled as `Int` (Python integers are unbounded),
numeric cell values as `ℚ`, and opaque external objects (criteria, optimizers,
devices, tensors, models) as type parameters.
-/

/-- Python exception values raised (or caught) by the embedded code. -/
inductive PyErr where
  | valueError (msg : String)
  | runtimeError (msg : String)
  | assertionError (msg : String)
  | exception (msg : String)
  | attributeError (name : String)
  | typeError (msg : String)
  | nameError (name : String)
  | fileNotFoundError (path : String)
deriving DecidableEq, Repr

/-- Arguments of `TrainerConfig.__init__` (src/knodle/trainer/config.py:12-26).
`C` = criterion callables, `O` = optimizer objects, `D` = devices,
`W` = class-weight tensor entries. -/
structure TrainerConfigArgs (C O D W : Type) where
  criterion : C
  batch_size : Int
  optimizer : Option O
  output_classes : Int
  epochs : Int
  output_dir_path : Option String
  if_set_seed : Bool
  filter_non_labelled : Bool
  use_probabilistic_labels : Bool
  other_class_id : Option Int
  grad_clipping : Option Int
  class_weights : Option (List W)

/-- The attribute state a successfully constructed `TrainerConfig` object holds
(exactly the attributes assigned in `__init__`, src/knodle/trainer/config.py:27-57). -/
structure TrainerConfig (C O D W : Type) where
  criterion : C
  batch_size : Int
  epochs : Int
  optimizer : O
  output_classes : Int
  device : D
  output_dir_path : Option String
  filter_non_labelled : Bool
  use_probabilistic_labels : Bool
  other_class_id : Option Int
  grad_clipping : Option Int
  class_weights : Option (List W)

/-- `TrainerConfig.__init__` (src/knodle/trainer/config.py:12-57).  `dev` is the
result of `check_and_return_device()` (a utility the spec states never raises).
The seed side effect and `os.makedirs` (idempotent per the spec) do not affect
the stored attributes and are omitted.  Check order follows the source:
epochs positivity, then optimizer presence, then class-weight length. -/
def TrainerConfig.init {C O D W : Type} (dev : D) (a : TrainerConfigArgs C O D W) :
    Except PyErr (TrainerConfig C O D W) :=
  if a.epochs ≤ 0 then
    .error (.valueError "Epochs needs to be positive")
  else
    match a.optimizer with
    | none => .error (.valueError "An optimizer needs to be provided")
    | some opt =>
      match a.class_weights with
      | some cw =>
        if (cw.length : Int) ≠ a.output_classes then
          .error (.exception "Wrong class sample_weights initialisation!")
        else
          .ok { criterion := a.criterion, batch_size := a.batch_size, epochs := a.epochs,
                optimizer := opt, output_classes := a.output_classes, device := dev,
                output_dir_path := a.output_dir_path,
                filter_non_labelled := a.filter_non_labelled,
                use_probabilistic_labels := a.use_probabilistic_labels,
                other_class_id := a.other_class_id, grad_clipping := a.grad_clipping,
                class_weights := some cw }
      | none =>
          .ok { criterion := a.criterion, batch_size := a.batch_size, epochs := a.epochs,
                optimizer := opt, output_classes := a.output_classes, device := dev,
                output_dir_path := a.output_dir_path,
                filter_non_labelled := a.filter_non_labelled,
                use_probabilistic_labels := a.use_probabilistic_labels,
                other_class_id := a.other_class_id, grad_clipping := a.grad_clipping,
                class_weights := none }

/-- Modelled from the spec: the class `DenoisingConfig`
(`knodle.trainer.config.DenoisingConfig`, the base class of the k-NN
configuration) is imported by src/knodle/trainer/knn_denoising/config.py but is
not itself under src/.  Per spec §4.2 the strategy configurations "extend base
config" and add no base-level validation of their own, so its construction is
modelled as the base trainer configuration's construction. -/
def DenoisingConfig.init {C O D W : Type} (dev : D) (a : TrainerConfigArgs C O D W) :
    Except PyErr (TrainerConfig C O D W) :=
  TrainerConfig.init dev a

/-- Attribute state of a constructed `KNNConfig`
(src/knodle/trainer/knn_denoising/config.py:7-25). -/
structure KNNConfig (C O D W : Type) where
  base : TrainerConfig C O D W
  k : Option Int
  radius : Option ℚ
  weighted_knn_activation : Bool
  caching_folder : Option String

/-- `KNNConfig.__init__` (src/knodle/trainer/knn_denoising/config.py:7-25):
first `super().__init__(**kwargs)`, then the attribute assignments, then the
mutual-exclusion check on `k` and `radius`. -/
def KNNConfig.init {C O D W : Type} (dev : D) (k : Option Int) (radius : Option ℚ)
    (weighted_knn_activation : Bool) (caching_folder : Option String)
    (kwargs : TrainerConfigArgs C O D W) : Except PyErr (KNNConfig C O D W) :=
  match DenoisingConfig.init dev kwargs with
  | .error e => .error e
  | .ok base =>
    if k.isSome && radius.isSome then
      .error (.runtimeError
        "The Knn trainer can either use the radius or the number of neighbours to denoise by neighborhood activation")
    else
      .ok { base := base, k := k, radius := radius,
            weighted_knn_activation := weighted_knn_activation,
            caching_folder := caching_folder }

/-- Path resolution performed by `BaseTrainer.load_model`
(src/knodle/trainer/trainer.py:318-326).  Python `if not save_model_name`
treats both `None` and the empty string as absent, likewise for the path;
`os.path.join` concatenates with a single separator here. -/
def resolveModelPath (save_model_name save_model_path : Option String) : String :=
  let nm := match save_model_name with
    | none => "checkpoint_best"
    | some s => if s = "" then "checkpoint_best" else s
  let nm := nm ++ "_best.pt"
  let pth := match save_model_path with
    | none => "trained_models"
    | some s => if s = "" then "trained_models" else s
  pth ++ "/" ++ nm

/-- `torch.load` on a path: raises `FileNotFoundError` when the file system
(`fs`, a map from paths to stored weight states `M`) has no file there. -/
def torchLoad {M : Type} (fs : String → Option M) (path : String) : Except PyErr M :=
  match fs path with
  | none => .error (.fileNotFoundError path)
  | some w => .ok w

/-- `BaseTrainer.load_model` (src/knodle/trainer/trainer.py:318-332): resolves
the checkpoint path, tries `torch.load` + `load_state_dict`, and catches
exactly `FileNotFoundError`, logging and keeping the current weights. -/
def load_model {M : Type} (fs : String → Option M) (current : M)
    (save_model_name save_model_path : Option String) : Except PyErr M :=
  match torchLoad fs (resolveModelPath save_model_name save_model_path) with
  | .error (.fileNotFoundError _) => .ok current
  | .error e => .error e
  | .ok w => .ok w

/-- The assertion message of `SimpleDsModelTrainer.train`
(src/knodle/trainer/baseline/baseline.py:34-37), with the two lengths
formatted in. -/
def simpleTrainMessage (numInputs numRuleMatches : Nat) : String :=
  "Length of inputs and rule matches have to be the same but they are: inputs: " ++
    toString numInputs ++ " | rule_matches: " ++ toString numRuleMatches

/-- The entry assertions of `SimpleDsModelTrainer.train`
(src/knodle/trainer/baseline/baseline.py:34-39): first the length agreement of
`inputs` and `rule_matches`, then positivity of `epochs`. -/
def simpleTrainChecks (numInputs numRuleMatches : Nat) (epochs : Int) : Except PyErr Unit :=
  if numInputs ≠ numRuleMatches then
    .error (.assertionError (simpleTrainMessage numInputs numRuleMatches))
  else if epochs ≤ 0 then
    .error (.assertionError "Epochs has to be set with a positive number")
  else
    .ok ()

/-- `SimpleDsModelTrainer.train` (src/knodle/trainer/baseline/baseline.py:25-59)
at the granularity the checked property needs: the entry assertions run first;
only if they pass does the epoch loop run (`runEpoch` abstracts the body of one
epoch: majority-vote labelling, forward/backward pass, optimizer step). -/
def simpleTrain {α : Type} (numInputs numRuleMatches : Nat) (epochs : Int)
    (runEpoch : Nat → α) : Except PyErr (List α) :=
  match simpleTrainChecks numInputs numRuleMatches epochs with
  | .error e => .error e
  | .ok _ => .ok ((List.range epochs.toNat).map runEpoch)

/-- The per-fold loop of `BaseTrainer._validate_with_cv`
(src/knodle/trainer/trainer.py:385-401).  The first argument is the value of
`trained_model` (the deep copy taken before the loop); the second state
argument is the current value of `self.model`.  Each iteration reassigns
`self.model` to a deep copy of `trained_model` (value `trained`), trains it
(`trainLoop` abstracts `_train_loop`, including any early-stopping reload),
then evaluates it (`evalModel` abstracts `test_with_loss`, which does not
change weights). -/
def cvFoldLoop {W F Mtr : Type} (trained : W) (trainLoop : W → F → W)
    (evalModel : W → F → Mtr) : List F → W → W × List Mtr
  | [], m => (m, [])
  | f :: fs, _ =>
    let m1 := trainLoop trained f
    let r := evalModel m1 f
    let rest := cvFoldLoop trained trainLoop evalModel fs m1
    (rest.1, r :: rest.2)

/-- `BaseTrainer._validate_with_cv` (src/knodle/trainer/trainer.py:374-417) at
the weight level: `trained_model = copy.deepcopy(self.model)` (value-equal
copy), the per-fold loop, then `self.model = trained_model`.  Returns the final
value of `self.model` together with the per-fold metric collection (the source
then averages the collected metrics with `statistics.mean`; the averaging is
external arithmetic and does not touch the model). -/
def validate_with_cv {W F Mtr : Type} (model0 : W) (folds : List F)
    (trainLoop : W → F → W) (evalModel : W → F → Mtr) : W × List Mtr :=
  let trained := model0
  let rest := cvFoldLoop trained trainLoop evalModel folds model0
  (trained, rest.2)

/-- Python attribute lookup values on a `TrainerConfig` object. -/
inductive ConfigVal (C O D W : Type) where
  | criterion (c : C)
  | batchSize (n : Int)
  | epochs (n : Int)
  | optimizer (o : O)
  | outputClasses (n : Int)
  | device (d : D)
  | outputDirPath (p : Option String)
  | filterNonLabelled (b : Bool)
  | useProbabilisticLabels (b : Bool)
  | otherClassId (v : Option Int)
  | gradClipping (v : Option Int)
  | classWeights (v : Option (List W))

/-- Python `getattr` on a constructed base `TrainerConfig`: exactly the
attributes assigned in `__init__` (src/knodle/trainer/config.py:27-57) exist;
any other name raises `AttributeError`.  In particular no `lr` attribute is
ever assigned. -/
def TrainerConfig.getattr {C O D W : Type} (cfg : TrainerConfig C O D W)
    (name : String) : Except PyErr (ConfigVal C O D W) :=
  if name = "criterion" then .ok (.criterion cfg.criterion)
  else if name = "batch_size" then .ok (.batchSize cfg.batch_size)
  else if name = "epochs" then .ok (.epochs cfg.epochs)
  else if name = "optimizer" then .ok (.optimizer cfg.optimizer)
  else if name = "output_classes" then .ok (.outputClasses cfg.output_classes)
  else if name = "device" then .ok (.device cfg.device)
  else if name = "output_dir_path" then .ok (.outputDirPath cfg.output_dir_path)
  else if name = "filter_non_labelled" then .ok (.filterNonLabelled cfg.filter_non_labelled)
  else if name = "use_probabilistic_labels" then .ok (.useProbabilisticLabels cfg.use_probabilistic_labels)
  else if name = "other_class_id" then .ok (.otherClassId cfg.other_class_id)
  else if name = "grad_clipping" then .ok (.gradClipping cfg.grad_clipping)
  else if name = "class_weights" then .ok (.classWeights cfg.class_weights)
  else .error (.attributeError name)

/-- Body of `Trainer.initialise_optimizer` (src/knodle/trainer/trainer.py:78-84)
over an arbitrary attribute store `getAttr` (the trainer's `trainer_config`):
evaluation order of `self.trainer_config.optimizer(params=..., lr=self.trainer_config.lr)`
is the `optimizer` attribute, then the `lr` attribute, then the call
(`callOpt`, the external optimizer constructor applied to the model parameters
and the learning rate).  The surrounding `try` catches exactly `TypeError`,
logging and returning `None` (no optimizer); every other exception propagates. -/
def initialiseOptimizerOn {V T : Type} (getAttr : String → Except PyErr V)
    (callOpt : V → V → Except PyErr T) : Except PyErr (Option T) :=
  let body : Except PyErr (Option T) :=
    match getAttr "optimizer" with
    | .error e => .error e
    | .ok opt =>
      match getAttr "lr" with
      | .error e => .error e
      | .ok lrVal =>
        match callOpt opt lrVal with
        | .error e => .error e
        | .ok o => .ok (some o)
  match body with
  | .error (.typeError _) => .ok none
  | r => r

/-- `Trainer.initialise_optimizer` on a trainer whose configuration is the base
`TrainerConfig` (src/knodle/trainer/trainer.py:78-84 with
src/knodle/trainer/config.py:12-57). -/
def initialise_optimizer {C O D W T : Type} (cfg : TrainerConfig C O D W)
    (callOpt : ConfigVal C O D W → ConfigVal C O D W → Except PyErr T) :
    Except PyErr (Option T) :=
  initialiseOptimizerOn cfg.getattr callOpt

/-- The four data attributes `BaseTrainer._load_train_params` may replace
(src/knodle/trainer/trainer.py:54-59,101-111). -/
structure TrainerData (X Z DX DY : Type) where
  model_input_x : X
  rule_matches_z : Z
  dev_model_input_x : DX
  dev_gold_labels_y : DY

/-- `BaseTrainer._load_train_params` (src/knodle/trainer/trainer.py:101-111):
the train pair is replaced only when both members are supplied (not `None`),
and the dev pair likewise. -/
def load_train_params {X Z DX DY : Type} (st : TrainerData X Z DX DY)
    (model_input_x : Option X) (rule_matches_z : Option Z)
    (dev_model_input_x : Option DX) (dev_gold_labels_y : Option DY) :
    TrainerData X Z DX DY :=
  let st1 :=
    match model_input_x, rule_matches_z with
    | some a, some b => { st with model_input_x := a, rule_matches_z := b }
    | _, _ => st
  match dev_model_input_x, dev_gold_labels_y with
  | some c, some d => { st1 with dev_model_input_x := c, dev_gold_labels_y := d }
  | _, _ => st1

/-- Names bound in the local scope of `train_cleanlab_bert`
(src/examples/trainer/cleanlab/cleanlab_training_bert.py:26-123) at the point
the per-combination result record is built (line 124): parameters, assignments
before and inside the loops, and loop/unpacking targets (including the
underscore targets of the tuple unpackings).  `file` is assigned only after the
loop, and `lr`, `epochs`, `batch_size` are never assigned in the function. -/
def sweepLocals : List String :=
  ["path_to_data", "output_file", "num_experiments", "parameters",
   "parameter_values", "v", "df_train", "_", "df_test", "train_rule_matches_z",
   "mapping_rules_labels_t", "train_input_x", "test_input_x", "X_train_tfidf",
   "test_labels", "test_labels_dataset", "num_classes", "tokenizer",
   "X_train_bert", "X_test_bert", "results", "run_id", "params", "cv_n_folds",
   "p", "iterations", "prune_method", "psx_calculation_method", "psx_epochs",
   "psx_lr", "exp_results_acc", "exp_results_prec", "exp_results_recall",
   "exp_results_f1", "exp", "model_logreg", "model_bert",
   "custom_cleanlab_config", "trainer", "clf_report", "result", "file"]

/-- Module-level names of src/examples/trainer/cleanlab/cleanlab_training_bert.py
(imports and top-level assignments, lines 1-26). -/
def sweepGlobals : List String :=
  ["logging", "argparse", "json", "os", "statistics", "sys", "product",
   "Tensor", "LongTensor", "CrossEntropyLoss", "Adam", "TensorDataset",
   "DistilBertTokenizer", "DistilBertForSequenceClassification", "AdamW",
   "sem", "get_tfidf_features", "convert_text_to_transformer_input",
   "read_train_dev_test", "LogisticRegressionModel", "CleanLabTrainer",
   "CleanLabConfig", "logger", "train_cleanlab_bert"]

/-- The names referenced by the value expressions of the `result` dict literal
(src/examples/trainer/cleanlab/cleanlab_training_bert.py:124-139), in Python's
left-to-right evaluation order of the dict values. -/
def resultValueNames : List String :=
  ["lr", "cv_n_folds", "p", "prune_method", "epochs", "batch_size",
   "psx_calculation_method",
   "exp_results_acc", "statistics", "exp_results_acc", "statistics",
   "exp_results_acc", "sem", "exp_results_acc",
   "exp_results_prec", "statistics", "exp_results_prec", "statistics",
   "exp_results_prec", "sem", "exp_results_prec",
   "exp_results_recall", "statistics", "exp_results_recall", "statistics",
   "exp_results_recall", "sem", "exp_results_recall",
   "exp_results_f1", "statistics", "exp_results_f1", "statistics",
   "exp_results_f1", "sem", "exp_results_f1"]

/-- Python name resolution inside `train_cleanlab_bert` at the record-building
point: a name resolves to its value iff it is a bound local or a module-level
global (none of the names the record references is a builtin); an unresolved
name raises `NameError`. -/
def sweepEnv {V : Type} (vals : String → V) (n : String) : Option V :=
  if sweepLocals.contains n || sweepGlobals.contains n then some (vals n) else none

/-- Evaluating one name in an environment: `NameError` when unbound. -/
def evalName {V : Type} (env : String → Option V) (n : String) : Except PyErr V :=
  match env n with
  | some v => .ok v
  | none => .error (.nameError n)

/-- Left-to-right evaluation of a list of names, stopping at the first
`NameError` (Python evaluates the dict literal's value expressions in order
and the first unbound name aborts the statement). -/
def evalNames {V : Type} (env : String → Option V) : List String → Except PyErr (List V)
  | [] => .ok []
  | n :: ns =>
    match evalName env n with
    | .error e => .error e
    | .ok v =>
      match evalNames env ns with
      | .error e => .error e
      | .ok vs => .ok (v :: vs)

/-- `num_experiments` (src/examples/trainer/cleanlab/cleanlab_training_bert.py:29). -/
def num_experiments : Nat := 30

/-- The four metrics read off one run's classification report
(src/examples/trainer/cleanlab/cleanlab_training_bert.py:119-122): accuracy,
macro precision, macro recall, macro F1. -/
structure ClfMetrics where
  accuracy : ℚ
  macroPrec : ℚ
  macroRecall : ℚ
  macroF1 : ℚ

/-- The inner experiment loop (lines 72-122): `num_experiments` repetitions of
training + evaluation (`runOnce` abstracts one repetition), appending each
run's accuracy / macro precision / macro recall / macro F1 to the four lists. -/
def runExperiments (runOnce : Nat → ClfMetrics) :
    List ℚ × List ℚ × List ℚ × List ℚ :=
  let rs := (List.range num_experiments).map runOnce
  (rs.map (fun r => r.accuracy), rs.map (fun r => r.macroPrec),
   rs.map (fun r => r.macroRecall), rs.map (fun r => r.macroF1))

/-- A hyperparameter combination of the sweep:
(cv_n_folds, p, iterations, prune_method, psx_calculation_method, psx_epochs, psx_lr). -/
abbrev SweepCombo : Type := Int × ℚ × Int × String × String × Int × ℚ

/-- The parameter grid (src/examples/trainer/cleanlab/cleanlab_training_bert.py:31-40)
expanded by `itertools.product` in its order (rightmost parameter varying fastest). -/
def sweepCombos : List SweepCombo :=
  ([3, 5, 8] : List Int).flatMap fun cv =>
    ([(1 : ℚ)/10, 3/10, 5/10, 7/10, 9/10] : List ℚ).flatMap fun p =>
      ([50] : List Int).flatMap fun iter =>
        (["prune_by_noise_rate"] : List String).flatMap fun pm =>
          (["signatures"] : List String).flatMap fun cm =>
            ([20] : List Int).flatMap fun pe =>
              ([(4 : ℚ)/5] : List ℚ).map fun plr =>
                (cv, p, iter, pm, cm, pe, plr)

/-- The per-combination loop of `train_cleanlab_bert` (lines 61-156): for each
combination the 30 experiment runs complete, then the `result` dict literal is
evaluated — whose value expressions reference `lr`, `epochs` and `batch_size`,
names unbound in the function — so a `NameError` propagates out of the loop. -/
def sweepDriverLoop {V : Type} (vals : String → V)
    (runOnce : SweepCombo → Nat → ClfMetrics) :
    List SweepCombo → Except PyErr (List (List V))
  | [] => .ok []
  | c :: cs =>
    let _exps := runExperiments (runOnce c)
    match evalNames (sweepEnv vals) resultValueNames with
    | .error e => .error e
    | .ok rec =>
      match sweepDriverLoop vals runOnce cs with
      | .error e => .error e
      | .ok rest => .ok (rec :: rest)

/-- `train_cleanlab_bert` (src/examples/trainer/cleanlab/cleanlab_training_bert.py:26-159)
at the granularity the checked property needs: run the per-combination loop
over the expanded grid; only if every combination yields a result record does
control reach `json.dump(results, file)` (modelled by returning `.ok` with the
accumulated records — the single JSON array written to the output file). -/
def train_cleanlab_bert {V : Type} (vals : String → V)
    (runOnce : SweepCombo → Nat → ClfMetrics) : Except PyErr (List (List V)) :=
  sweepDriverLoop vals runOnce sweepCombos

/-- Whether `pat` matches at the start of `s` (character-wise). -/
def matchesAt : List Char → List Char → Bool
  | [], _ => true
  | _ :: _, [] => false
  | p :: ps, c :: cs => if p = c then matchesAt ps cs else false

/-- Whether `pat` occurs in `s` at position `i`. -/
def occursAt (s pat : List Char) (i : Nat) : Bool :=
  matchesAt pat (s.drop i)

/-- Index of the first occurrence of `pat` in `s`, if any (the search Python
`str.find` performs). -/
def findSub (s pat : List Char) : Option Nat :=
  match s with
  | [] => if matchesAt pat [] then some 0 else none
  | _ :: rest =>
    if matchesAt pat s then some 0
    else (findSub rest pat).map (fun i => i + 1)

/-- Python `str.find`: first index of the substring, `-1` when absent. -/
def pyFind (s pat : List Char) : Int :=
  match findSub s pat with
  | some i => (i : Int)
  | none => -1

/-- Normalisation of one Python slice bound over a sequence of length `n`:
negative bounds count from the end, then both are clamped into `[0, n]`. -/
def pyIdx (n : Nat) (i : Int) : Nat :=
  if i < 0 then ((n : Int) + i).toNat else min i.toNat n

/-- Python slicing `s[a:b]` with possibly negative bounds. -/
def pySlice (s : List Char) (a b : Int) : List Char :=
  (s.take (pyIdx s.length b)).drop (pyIdx s.length a)

/-- The two `str.replace` calls of the report loop
(src/examples/data_preprocessing/mimic_dataset/prepare_mimic_cxr.py:116-117):
every newline and every comma is removed. -/
def stripNC (s : List Char) : List Char :=
  s.filter (fun c => decide (c ≠ '\n') && decide (c ≠ ','))

/-- The findings marker literal. -/
def fMark : List Char := "FINDINGS:".toList

/-- The impression marker literal. -/
def iMark : List Char := "IMPRESSION:".toList

/-- One iteration of the report-parsing loop
(src/examples/data_preprocessing/mimic_dataset/prepare_mimic_cxr.py:112-124):
strip newlines and commas, locate the two markers with `str.find`, and slice
`text[start:end]` (findings) and `text[end:len(text)]` (impressions). -/
def parseReport (text : List Char) : List Char × List Char :=
  let t := stripNC text
  let s := pyFind t fMark
  let e := pyFind t iMark
  (pySlice t s e, pySlice t e (t.length : Int))

/-- Whether a CSV field reads back as NA when the table is reopened with
`pd.read_csv(..., na_values='.')`
(src/examples/data_preprocessing/mimic_dataset/prepare_mimic_cxr.py:127-129):
an empty field is NA by default and `'.'` is the configured extra NA token
(the two NA forms the sliced report fields can take here). -/
def naField (s : List Char) : Bool :=
  s.isEmpty || s = ['.']

/-- The impression fallback
(src/examples/data_preprocessing/mimic_dataset/prepare_mimic_cxr.py:140-141):
`reports.impressions.fillna(reports.findings)` — an NA impression is replaced
by the findings field (itself possibly NA). `none` = the cell is NA. -/
def fillImpression (findings impressions : List Char) : Option (List Char) :=
  if naField impressions then
    (if naField findings then none else some findings)
  else some impressions

/-- Row retention after the fallback
(src/examples/data_preprocessing/mimic_dataset/prepare_mimic_cxr.py:142-144):
the findings column is deleted and `dropna()` keeps the study iff its filled
impression cell is not NA. -/
def keepStudy (findings impressions : List Char) : Bool :=
  (fillImpression findings impressions).isSome

/-- One row of the weak-label export as scanned by the label-derivation loop:
the two id columns, the label-column cells, each a numeric cell or NA (`none`).
(src/examples/data_preprocessing/mimic_dataset/prepare_mimic_cxr.py:154-168). -/
structure ChexpertRow where
  subject_id : Option ℚ
  study_id : Option ℚ
  labelCells : List (Option ℚ)

/-- The `== 1.0` cell test of line 162 (NA compares unequal). -/
def cellIsOne (c : Option ℚ) : Bool :=
  c = some (1 : ℚ)

/-- `labels_list = labels_chexpert.columns.to_numpy()` (line 157): the id
columns, the label columns, and the appended `label` column. -/
def chexpertColumns (labelNames : List String) : List String :=
  "subject_id" :: "study_id" :: (labelNames ++ ["label"])

/-- The cells of row `i` as scanned by `labels_chexpert.iloc[i,:] == 1.0`
(line 162): the entire row, id columns and the appended `label` column
(initialised to `0`, line 156) included. -/
def rowCells (r : ChexpertRow) : List (Option ℚ) :=
  r.subject_id :: r.study_id :: (r.labelCells ++ [some 0])

/-- The column names flagged by `label_is1` for a row (`labels_list[label_is1]`,
lines 162-166): every column of the row whose cell equals `1.0`. -/
def flaggedColumns (labelNames : List String) (r : ChexpertRow) : List String :=
  (((chexpertColumns labelNames).zip (rowCells r)).filter
    (fun nc => cellIsOne nc.2)).map (fun nc => nc.1)

/-- The label derivation of lines 160-168: exactly one flagged column — that
column; several — `random.choice` among them (the uniform draw is modelled by
an index `rand`, reduced mod the flagged count); none — the literal
`'No Finding'`. -/
def deriveLabel (labelNames : List String) (r : ChexpertRow) (rand : Nat) : String :=
  let flagged := flaggedColumns labelNames r
  if flagged.length = 1 then flagged.getD 0 ""
  else if 1 < flagged.length then flagged.getD (rand % flagged.length) ""
  else "No Finding"

/-- The claim's reading of the flagged set: only the 14 label columns of the
export are consulted.  Stated from the spec's words for comparison with
`flaggedColumns`, which follows the source. -/
def labelFlaggedColumns (labelNames : List String) (r : ChexpertRow) : List String :=
  ((labelNames.zip r.labelCells).filter (fun nc => cellIsOne nc.2)).map (fun nc => nc.1)

/-- The 14 label columns of the weak-label export, in column order. -/
def chexpertLabelNames : List String :=
  ["Atelectasis", "Cardiomegaly", "Consolidation", "Edema",
   "Enlarged Cardiomediastinum", "Fracture", "Lung Lesion", "Lung Opacity",
   "No Finding", "Pleural Effusion", "Pleural Other", "Pneumonia",
   "Pneumothorax", "Support Devices"]

/-- The metric collection of the fold loop: fold `i` is evaluated on the model
obtained by training a fresh copy of the pre-call weights on fold `i`. -/
theorem cvFoldLoop_metrics {W F Mtr : Type} (trained : W) (t : W → F → W)
    (e : W → F → Mtr) :
    ∀ (folds : List F) (m : W),
      (cvFoldLoop trained t e folds m).2 = folds.map (fun f => e (t trained f) f) := by
  intro folds
  induction folds with
  | nil => intro m; rfl
  | cons f fs ih => intro m; simp [cvFoldLoop, ih]

/-- C5: `_validate_with_cv` trains every fold on a deep copy of the pre-call
model (fold `i`'s evaluated model is `trainLoop model0 (fold i)`, independent
of the other folds), and after the call the trainer's owned model is
numerically the pre-call model. -/
theorem c5_validate_with_cv_frame :
    ∀ (W F Mtr : Type) (model0 : W) (folds : List F)
      (trainLoop : W → F → W) (evalModel : W → F → Mtr),
      (validate_with_cv model0 folds trainLoop evalModel).1 = model0 ∧
      (validate_with_cv model0 folds trainLoop evalModel).2 =
        folds.map (fun f => evalModel (trainLoop model0 f) f) := by
  intro W F Mtr model0 folds trainLoop evalModel
  exact ⟨rfl, cvFoldLoop_metrics model0 trainLoop evalModel folds model0⟩

/-- C10: `_load_train_params` replaces the train pair only when both members
are supplied and the dev pair only when both are supplied; supplying exactly
one member of either pair leaves both stored values of that pair unchanged. -/
theorem c10_load_train_params_pairs :
    (∀ (X Z DX DY : Type) (st : TrainerData X Z DX DY) (a : X)
        (dx : Option DX) (dy : Option DY),
      (load_train_params st (some a) none dx dy).model_input_x = st.model_input_x ∧
      (load_train_params st (some a) none dx dy).rule_matches_z = st.rule_matches_z) ∧
    (∀ (X Z DX DY : Type) (st : TrainerData X Z DX DY) (b : Z)
        (dx : Option DX) (dy : Option DY),
      (load_train_params st none (some b) dx dy).model_input_x = st.model_input_x ∧
      (load_train_params st none (some b) dx dy).rule_matches_z = st.rule_matches_z) ∧
    (∀ (X Z DX DY : Type) (st : TrainerData X Z DX DY) (x : Option X)
        (z : Option Z) (c : DX),
      (load_train_params st x z (some c) none).dev_model_input_x = st.dev_model_input_x ∧
      (load_train_params st x z (some c) none).dev_gold_labels_y = st.dev_gold_labels_y) ∧
    (∀ (X Z DX DY : Type) (st : TrainerData X Z DX DY) (x : Option X)
        (z : Option Z) (d : DY),
      (load_train_params st x z none (some d)).dev_model_input_x = st.dev_model_input_x ∧
      (load_train_params st x z none (some d)).dev_gold_labels_y = st.dev_gold_labels_y) ∧
    (∀ (X Z DX DY : Type) (st : TrainerData X Z DX DY) (a : X) (b : Z)
        (dx : Option DX) (dy : Option DY),
      (load_train_params st (some a) (some b) dx dy).model_input_x = a ∧
      (load_train_params st (some a) (some b) dx dy).rule_matches_z = b) ∧
    (∀ (X Z DX DY : Type) (st : TrainerData X Z DX DY) (x : Option X)
        (z : Option Z) (c : DX) (d : DY),
      (load_train_params st x z (some c) (some d)).dev_model_input_x = c ∧
      (load_train_params st x z (some c) (some d)).dev_gold_labels_y = d) := by
  refine ⟨?_, ?_, ?_, ?_, ?_, ?_⟩
  · intro X Z DX DY st a dx dy
    cases dx <;> cases dy <;> exact ⟨rfl, rfl⟩
  · intro X Z DX DY st b dx dy
    cases dx <;> cases dy <;> exact ⟨rfl, rfl⟩
  · intro X Z DX DY st x z c
    cases x <;> cases z <;> exact ⟨rfl, rfl⟩
  · intro X Z DX DY st x z d
    cases x <;> cases z <;> exact ⟨rfl, rfl⟩
  · intro X Z DX DY st a b dx dy
    cases dx <;> cases dy <;> exact ⟨rfl, rfl⟩
  · intro X Z DX DY st x z c d
    cases x <;> cases z <;> exact ⟨rfl, rfl⟩

/-- C3: loading a checkpoint from a path whose file does not exist raises no
exception and leaves the in-memory weights unchanged, and the default load
path is `trained_models/checkpoint_best_best.pt`
(directory `trained_models`, file `<save_model_name>_best.pt`, default name
`checkpoint_best`). -/
theorem c3_load_model_missing_file :
    (∀ (M : Type) (fs : String → Option M) (current : M)
        (nm pth : Option String),
      fs (resolveModelPath nm pth) = none →
      load_model fs current nm pth = .ok current) ∧
    resolveModelPath none none = "trained_models/checkpoint_best_best.pt" ∧
    (∀ nm : String, nm ≠ "" →
      resolveModelPath (some nm) none = "trained_models/" ++ (nm ++ "_best.pt")) := by
  refine ⟨?_, rfl, ?_⟩
  · intro M fs current nm pth h
    simp [load_model, torchLoad, h]
  · intro nm h
    simp [resolveModelPath, h]

/-- Witness for C3 at a concrete missing file and concrete names. -/
theorem c3_witness :
    load_model (fun _ => (none : Option Nat)) 7 none none = .ok 7 ∧
    resolveModelPath none none = "trained_models/checkpoint_best_best.pt" ∧
    resolveModelPath (some "mymodel") none = "trained_models/" ++ ("mymodel" ++ "_best.pt") :=
  ⟨c3_load_model_missing_file.1 Nat (fun _ => none) 7 none none rfl,
   c3_load_model_missing_file.2.1,
   c3_load_model_missing_file.2.2 "mymodel" (by decide)⟩

/-- A pattern matches at the start of itself followed by anything. -/
theorem matchesAt_self_append (p r : List Char) : matchesAt p (p ++ r) = true := by
  induction p with
  | nil => rfl
  | cons c cs ih => simp [matchesAt, ih]

/-- A pattern occurs right after a prefix it is appended to. -/
theorem occursAt_of_append (pre pat post : List Char) :
    occursAt (pre ++ (pat ++ post)) pat pre.length = true := by
  unfold occursAt
  rw [List.drop_left]
  exact matchesAt_self_append pat post

/-- A pattern occurs at the end of a list it is appended to. -/
theorem occursAt_of_append_right (pre pat : List Char) :
    occursAt (pre ++ pat) pat pre.length = true := by
  have h := occursAt_of_append pre pat []
  simpa using h

/-- C4: a row-count mismatch between `inputs` and `rule_matches` makes the
majority-vote trainer's `train` raise before any training step, with both
lengths named in the message; with equal lengths the length check passes and
training runs (or the separate epoch check fires). -/
theorem c4_simple_train_length_mismatch :
    (∀ (α : Type) (n m : Nat) (e : Int) (runEpoch : Nat → α), n ≠ m →
      simpleTrain n m e runEpoch =
        .error (.assertionError (simpleTrainMessage n m))) ∧
    (∀ n m : Nat, ∃ i j,
      occursAt (simpleTrainMessage n m).toList (toString n).toList i = true ∧
      occursAt (simpleTrainMessage n m).toList (toString m).toList j = true) ∧
    (∀ (α : Type) (n : Nat) (e : Int) (runEpoch : Nat → α), 0 < e →
      simpleTrain n n e runEpoch = .ok ((List.range e.toNat).map runEpoch)) ∧
    (∀ (n : Nat) (e : Int), e ≤ 0 →
      simpleTrainChecks n n e =
        .error (.assertionError "Epochs has to be set with a positive number")) := by
  refine ⟨?_, ?_, ?_, ?_⟩
  · intro α n m e runEpoch h
    simp [simpleTrain, simpleTrainChecks, h]
  · intro n m
    refine ⟨("Length of inputs and rule matches have to be the same but they are: inputs: ".toList).length,
            ("Length of inputs and rule matches have to be the same but they are: inputs: ".toList
              ++ (toString n).toList ++ (" | rule_matches: ".toList)).length, ?_, ?_⟩
    · have hdec : (simpleTrainMessage n m).toList =
          "Length of inputs and rule matches have to be the same but they are: inputs: ".toList
            ++ ((toString n).toList ++ (" | rule_matches: ".toList ++ (toString m).toList)) := by
        simp [simpleTrainMessage, String.toList]
      rw [hdec]
      exact occursAt_of_append _ _ _
    · have hdec : (simpleTrainMessage n m).toList =
          ("Length of inputs and rule matches have to be the same but they are: inputs: ".toList
            ++ (toString n).toList ++ (" | rule_matches: ".toList)) ++ (toString m).toList := by
        simp [simpleTrainMessage, String.toList]
      rw [hdec]
      exact occursAt_of_append_right _ _
  · intro α n e runEpoch h
    have h2 : ¬ e ≤ 0 := by omega
    simp [simpleTrain, simpleTrainChecks, h2]
  · intro n e h
    simp [simpleTrainChecks, h]

/-- Witness for C4 at concrete lengths 2 and 3 (mismatch) and 4 and 4 (match). -/
theorem c4_witness :
    simpleTrain 2 3 5 (fun k => k) =
      .error (.assertionError (simpleTrainMessage 2 3)) ∧
    (∃ i j,
      occursAt (simpleTrainMessage 2 3).toList (toString (2 : Nat)).toList i = true ∧
      occursAt (simpleTrainMessage 2 3).toList (toString (3 : Nat)).toList j = true) ∧
    simpleTrain 4 4 2 (fun k => k) = .ok ((List.range (2 : Int).toNat).map (fun k => k)) ∧
    simpleTrainChecks 4 4 0 =
      .error (.assertionError "Epochs has to be set with a positive number") :=
  ⟨c4_simple_train_length_mismatch.1 Nat 2 3 5 (fun k => k) (by decide),
   c4_simple_train_length_mismatch.2.1 2 3,
   c4_simple_train_length_mismatch.2.2.1 Nat 4 2 (fun k => k) (by decide),
   c4_simple_train_length_mismatch.2.2.2 4 0 (by decide)⟩

/-- C1, counterexample to the claim as stated: epochs is positive (1) and an
optimizer is supplied, yet construction raises, because the supplied
class-weight vector (length 3) disagrees with `output_classes` (2). -/
theorem c1_counterexample :
    TrainerConfig.init (0 : Nat)
      ({ criterion := 0, batch_size := 32, optimizer := some 0,
         output_classes := 2, epochs := 1, output_dir_path := none,
         if_set_seed := false, filter_non_labelled := true,
         use_probabilistic_labels := true, other_class_id := none,
         grad_clipping := none,
         class_weights := some [0, 0, 0] } : TrainerConfigArgs Nat Nat Nat Nat) =
      .error (.exception "Wrong class sample_weights initialisation!") := rfl

/-- C1 (amended): with a positive epoch count, a supplied optimizer, and
class weights that (when supplied) match `output_classes` in length,
construction succeeds and stores every supplied field unchanged; omitting the
optimizer raises at construction; a non-positive epoch count raises at
construction. -/
theorem c1_trainer_config_construction :
    (∀ (C O D W : Type) (dev : D) (a : TrainerConfigArgs C O D W) (opt : O),
      0 < a.epochs → a.optimizer = some opt →
      (∀ cw, a.class_weights = some cw → (cw.length : Int) = a.output_classes) →
      TrainerConfig.init dev a = .ok
        { criterion := a.criterion, batch_size := a.batch_size, epochs := a.epochs,
          optimizer := opt, output_classes := a.output_classes, device := dev,
          output_dir_path := a.output_dir_path,
          filter_non_labelled := a.filter_non_labelled,
          use_probabilistic_labels := a.use_probabilistic_labels,
          other_class_id := a.other_class_id, grad_clipping := a.grad_clipping,
          class_weights := a.class_weights }) ∧
    (∀ (C O D W : Type) (dev : D) (a : TrainerConfigArgs C O D W),
      a.optimizer = none →
      ∃ msg, TrainerConfig.init dev a = .error (.valueError msg)) ∧
    (∀ (C O D W : Type) (dev : D) (a : TrainerConfigArgs C O D W),
      a.epochs ≤ 0 →
      TrainerConfig.init dev a = .error (.valueError "Epochs needs to be positive")) := by
  refine ⟨?_, ?_, ?_⟩
  · intro C O D W dev a opt hep hopt hcw
    have hne : ¬ a.epochs ≤ 0 := by omega
    cases hc : a.class_weights with
    | none => simp [TrainerConfig.init, hne, hopt, hc]
    | some cw =>
      have hw := hcw cw hc
      simp [TrainerConfig.init, hne, hopt, hc, hw]
  · intro C O D W dev a hopt
    by_cases hep : a.epochs ≤ 0
    · exact ⟨"Epochs needs to be positive", by simp [TrainerConfig.init, hep]⟩
    · exact ⟨"An optimizer needs to be provided", by simp [TrainerConfig.init, hep, hopt]⟩
  · intro C O D W dev a hep
    simp [TrainerConfig.init, hep]

/-- Witness for C1 at a concrete valid argument bundle (and a concrete missing
optimizer, and a concrete non-positive epoch count). -/
theorem c1_witness :
    TrainerConfig.init (0 : Nat)
      ({ criterion := 1, batch_size := 32, optimizer := some 9,
         output_classes := 2, epochs := 3, output_dir_path := some "out",
         if_set_seed := false, filter_non_labelled := false,
         use_probabilistic_labels := true, other_class_id := some 4,
         grad_clipping := some 5,
         class_weights := some [7, 8] } : TrainerConfigArgs Nat Nat Nat Nat) =
      .ok { criterion := 1, batch_size := 32, epochs := 3, optimizer := 9,
            output_classes := 2, device := 0, output_dir_path := some "out",
            filter_non_labelled := false, use_probabilistic_labels := true,
            other_class_id := some 4, grad_clipping := some 5,
            class_weights := some [7, 8] } ∧
    (∃ msg, TrainerConfig.init (0 : Nat)
      ({ criterion := 1, batch_size := 32, optimizer := none,
         output_classes := 2, epochs := 3, output_dir_path := none,
         if_set_seed := false, filter_non_labelled := true,
         use_probabilistic_labels := true, other_class_id := none,
         grad_clipping := none,
         class_weights := none } : TrainerConfigArgs Nat Nat Nat Nat) =
        .error (.valueError msg)) ∧
    TrainerConfig.init (0 : Nat)
      ({ criterion := 1, batch_size := 32, optimizer := some 9,
         output_classes := 2, epochs := 0, output_dir_path := none,
         if_set_seed := false, filter_non_labelled := true,
         use_probabilistic_labels := true, other_class_id := none,
         grad_clipping := none,
         class_weights := none } : TrainerConfigArgs Nat Nat Nat Nat) =
      .error (.valueError "Epochs needs to be positive") :=
  ⟨c1_trainer_config_construction.1 Nat Nat Nat Nat 0 _ 9 (by decide) rfl
     (by intro cw h; injection h with h; subst h; decide),
   c1_trainer_config_construction.2.1 Nat Nat Nat Nat 0 _ rfl,
   c1_trainer_config_construction.2.2 Nat Nat Nat Nat 0 _ (by decide)⟩

/-- C2, counterexample to the claim as stated: exactly one of `k` and `radius`
is supplied (`k = 5`, `radius` absent), yet construction fails, because the
inherited base-configuration arguments omit the optimizer and the base
constructor (run first by `super().__init__`) raises. -/
theorem c2_counterexample :
    KNNConfig.init (0 : Nat) (some 5) none false none
      ({ criterion := 0, batch_size := 32, optimizer := none,
         output_classes := 2, epochs := 35, output_dir_path := none,
         if_set_seed := false, filter_non_labelled := true,
         use_probabilistic_labels := true, other_class_id := none,
         grad_clipping := none,
         class_weights := none } : TrainerConfigArgs Nat Nat Nat Nat) =
      .error (.valueError "An optimizer needs to be provided") := rfl

/-- C2 (amended): supplying both `k` and `radius` always raises at
construction regardless of their values (the mutual-exclusion error when the
base construction succeeds); supplying exactly one of them succeeds provided
the inherited base-configuration arguments are themselves valid, and stores
the supplied option. -/
theorem c2_knn_config_mutual_exclusion :
    (∀ (C O D W : Type) (dev : D) (k : Int) (radius : ℚ) (w : Bool)
        (cf : Option String) (kwargs : TrainerConfigArgs C O D W),
      ∃ e, KNNConfig.init dev (some k) (some radius) w cf kwargs = .error e) ∧
    (∀ (C O D W : Type) (dev : D) (k : Int) (radius : ℚ) (w : Bool)
        (cf : Option String) (kwargs : TrainerConfigArgs C O D W)
        (base : TrainerConfig C O D W),
      DenoisingConfig.init dev kwargs = .ok base →
      KNNConfig.init dev (some k) (some radius) w cf kwargs =
        .error (.runtimeError
          "The Knn trainer can either use the radius or the number of neighbours to denoise by neighborhood activation")) ∧
    (∀ (C O D W : Type) (dev : D) (k : Int) (w : Bool)
        (cf : Option String) (kwargs : TrainerConfigArgs C O D W)
        (base : TrainerConfig C O D W),
      DenoisingConfig.init dev kwargs = .ok base →
      KNNConfig.init dev (some k) none w cf kwargs =
        .ok { base := base, k := some k, radius := none,
              weighted_knn_activation := w, caching_folder := cf }) ∧
    (∀ (C O D W : Type) (dev : D) (radius : ℚ) (w : Bool)
        (cf : Option String) (kwargs : TrainerConfigArgs C O D W)
        (base : TrainerConfig C O D W),
      DenoisingConfig.init dev kwargs = .ok base →
      KNNConfig.init dev none (some radius) w cf kwargs =
        .ok { base := base, k := none, radius := some radius,
              weighted_knn_activation := w, caching_folder := cf }) := by
  refine ⟨?_, ?_, ?_, ?_⟩
  · intro C O D W dev k radius w cf kwargs
    cases h : DenoisingConfig.init dev kwargs with
    | error e => exact ⟨e, by simp [KNNConfig.init, h]⟩
    | ok base =>
      exact ⟨.runtimeError
        "The Knn trainer can either use the radius or the number of neighbours to denoise by neighborhood activation",
        by simp [KNNConfig.init, h]⟩
  · intro C O D W dev k radius w cf kwargs base h
    simp [KNNConfig.init, h]
  · intro C O D W dev k w cf kwargs base h
    simp [KNNConfig.init, h]
  · intro C O D W dev radius w cf kwargs base h
    simp [KNNConfig.init, h]

/-- Witness for C2 at concrete inputs: with valid base arguments, supplying
both `k = 5` and `radius = 1/2` raises the mutual-exclusion error, and
supplying exactly one succeeds. -/
theorem c2_witness :
    KNNConfig.init (0 : Nat) (some 5) (some (1/2 : ℚ)) false none
      ({ criterion := 1, batch_size := 32, optimizer := some 9,
         output_classes := 2, epochs := 35, output_dir_path := none,
         if_set_seed := false, filter_non_labelled := true,
         use_probabilistic_labels := true, other_class_id := none,
         grad_clipping := none,
         class_weights := none } : TrainerConfigArgs Nat Nat Nat Nat) =
      .error (.runtimeError
        "The Knn trainer can either use the radius or the number of neighbours to denoise by neighborhood activation") ∧
    KNNConfig.init (0 : Nat) (some 5) none false none
      ({ criterion := 1, batch_size := 32, optimizer := some 9,
         output_classes := 2, epochs := 35, output_dir_path := none,
         if_set_seed := false, filter_non_labelled := true,
         use_probabilistic_labels := true, other_class_id := none,
         grad_clipping := none,
         class_weights := none } : TrainerConfigArgs Nat Nat Nat Nat) =
      .ok { base := { criterion := 1, batch_size := 32, epochs := 35,
                      optimizer := 9, output_classes := 2, device := 0,
                      output_dir_path := none, filter_non_labelled := true,
                      use_probabilistic_labels := true, other_class_id := none,
                      grad_clipping := none, class_weights := none },
            k := some 5, radius := none, weighted_knn_activation := false,
            caching_folder := none } ∧
    KNNConfig.init (0 : Nat) none (some (1/2 : ℚ)) false none
      ({ criterion := 1, batch_size := 32, optimizer := some 9,
         output_classes := 2, epochs := 35, output_dir_path := none,
         if_set_seed := false, filter_non_labelled := true,
         use_probabilistic_labels := true, other_class_id := none,
         grad_clipping := none,
         class_weights := none } : TrainerConfigArgs Nat Nat Nat Nat) =
      .ok { base := { criterion := 1, batch_size := 32, epochs := 35,
                      optimizer := 9, output_classes := 2, device := 0,
                      output_dir_path := none, filter_non_labelled := true,
                      use_probabilistic_labels := true, other_class_id := none,
                      grad_clipping := none, class_weights := none },
            k := none, radius := some (1/2 : ℚ), weighted_knn_activation := false,
            caching_folder := none } :=
  ⟨c2_knn_config_mutual_exclusion.2.1 Nat Nat Nat Nat 0 5 (1/2) false none _ _ rfl,
   c2_knn_config_mutual_exclusion.2.2.1 Nat Nat Nat Nat 0 5 false none _ _ rfl,
   c2_knn_config_mutual_exclusion.2.2.2 Nat Nat Nat Nat 0 (1/2) false none _ _ rfl⟩

/-- C9: the base `TrainerConfig` defines no `lr` attribute, so
`initialise_optimizer` on a trainer configured with the base config raises an
uncaught `AttributeError` (the `try` catches only `TypeError`); when the
attribute lookups succeed, a `TypeError` from the optimizer call is caught and
logged, returning no optimizer, while any other exception propagates. -/
theorem c9_initialise_optimizer_lr :
    (∀ (C O D W : Type) (cfg : TrainerConfig C O D W),
      cfg.getattr "lr" = .error (.attributeError "lr")) ∧
    (∀ (C O D W T : Type) (cfg : TrainerConfig C O D W)
        (callOpt : ConfigVal C O D W → ConfigVal C O D W → Except PyErr T),
      initialise_optimizer cfg callOpt = .error (.attributeError "lr")) ∧
    (∀ (V T : Type) (getAttr : String → Except PyErr V)
        (callOpt : V → V → Except PyErr T) (opt lrVal : V) (s : String),
      getAttr "optimizer" = .ok opt → getAttr "lr" = .ok lrVal →
      callOpt opt lrVal = .error (.typeError s) →
      initialiseOptimizerOn getAttr callOpt = .ok none) ∧
    (∀ (V T : Type) (getAttr : String → Except PyErr V)
        (callOpt : V → V → Except PyErr T) (opt lrVal : V) (e : PyErr),
      getAttr "optimizer" = .ok opt → getAttr "lr" = .ok lrVal →
      callOpt opt lrVal = .error e → (∀ s, e ≠ .typeError s) →
      initialiseOptimizerOn getAttr callOpt = .error e) := by
  refine ⟨?_, ?_, ?_, ?_⟩
  · intro C O D W cfg
    rfl
  · intro C O D W T cfg callOpt
    rfl
  · intro V T getAttr callOpt opt lrVal s h1 h2 h3
    simp [initialiseOptimizerOn, h1, h2, h3]
  · intro V T getAttr callOpt opt lrVal e h1 h2 h3 hne
    cases e with
    | typeError s => exact absurd rfl (hne s)
    | valueError m => simp [initialiseOptimizerOn, h1, h2, h3]
    | runtimeError m => simp [initialiseOptimizerOn, h1, h2, h3]
    | assertionError m => simp [initialiseOptimizerOn, h1, h2, h3]
    | exception m => simp [initialiseOptimizerOn, h1, h2, h3]
    | attributeError m => simp [initialiseOptimizerOn, h1, h2, h3]
    | nameError m => simp [initialiseOptimizerOn, h1, h2, h3]
    | fileNotFoundError m => simp [initialiseOptimizerOn, h1, h2, h3]

/-- Witness for C9 at a concrete base configuration and a concrete attribute
store possessing `lr`. -/
theorem c9_witness :
    initialise_optimizer
      ({ criterion := 1, batch_size := 32, epochs := 3, optimizer := 9,
         output_classes := 2, device := 0, output_dir_path := none,
         filter_non_labelled := true, use_probabilistic_labels := true,
         other_class_id := none, grad_clipping := none,
         class_weights := none } : TrainerConfig Nat Nat Nat Nat)
      (fun _ _ => .ok (0 : Nat)) = .error (.attributeError "lr") ∧
    initialiseOptimizerOn
      (fun n => if n = "optimizer" then .ok 0 else if n = "lr" then .ok 1
                else .error (.attributeError n))
      (fun _ _ => (.error (.typeError "bad signature") : Except PyErr Nat)) = .ok none ∧
    initialiseOptimizerOn
      (fun n => if n = "optimizer" then .ok 0 else if n = "lr" then .ok 1
                else .error (.attributeError n))
      (fun _ _ => (.error (.valueError "boom") : Except PyErr Nat)) =
      .error (.valueError "boom") :=
  ⟨c9_initialise_optimizer_lr.2.1 Nat Nat Nat Nat Nat _ (fun _ _ => .ok 0),
   c9_initialise_optimizer_lr.2.2.1 Nat Nat _ _ 0 1 "bad signature" rfl rfl rfl,
   c9_initialise_optimizer_lr.2.2.2 Nat Nat _ _ 0 1 (.valueError "boom") rfl rfl rfl
     (by intro s h; cases h)⟩

/-- The name `lr` is unbound in `train_cleanlab_bert`'s scope. -/
theorem sweepEnv_lr_none {V : Type} (vals : String → V) : sweepEnv vals "lr" = none := by
  unfold sweepEnv
  rw [if_neg]
  decide

/-- Evaluating the result record's value expressions in the driver's scope
fails immediately at the first expression, the unbound name `lr`. -/
theorem evalNames_resultValueNames {V : Type} (vals : String → V) :
    evalNames (sweepEnv vals) resultValueNames = .error (.nameError "lr") := by
  have h := sweepEnv_lr_none vals
  simp [resultValueNames, evalNames, evalName, h]

/-- C6: building the per-combination result record raises
`NameError: name 'lr' is not defined` (the record's value expressions
reference `lr`, `epochs` and `batch_size`, none of which is bound in the
function), so the sweep driver never reaches `json.dump` and writes no output,
for every possible run outcome; the grid has 15 combinations and each would
repeat training+evaluation `num_experiments = 30` times, collecting the four
metric lists, before the record build aborts the run. -/
theorem c6_sweep_driver_name_error :
    (∀ (V : Type) (vals : String → V) (runOnce : SweepCombo → Nat → ClfMetrics),
      train_cleanlab_bert vals runOnce = .error (.nameError "lr")) ∧
    num_experiments = 30 ∧
    (∀ runOnce : Nat → ClfMetrics,
      (runExperiments runOnce).1.length = num_experiments ∧
      (runExperiments runOnce).2.1.length = num_experiments ∧
      (runExperiments runOnce).2.2.1.length = num_experiments ∧
      (runExperiments runOnce).2.2.2.length = num_experiments) ∧
    sweepCombos.length = 15 := by
  refine ⟨?_, rfl, ?_, by decide⟩
  · intro V vals runOnce
    have hne : sweepCombos ≠ [] := by
      have hl : sweepCombos.length = 15 := by decide
      intro h
      rw [h] at hl
      exact absurd hl (by decide)
    obtain ⟨c, cs, hcc⟩ := List.exists_cons_of_ne_nil hne
    unfold train_cleanlab_bert
    rw [hcc]
    simp [sweepDriverLoop, evalNames_resultValueNames vals]
  · intro runOnce
    refine ⟨?_, ?_, ?_, ?_⟩ <;> simp [runExperiments]

/-- `findSub` only returns positions within the string. -/
theorem findSub_le_length :
    ∀ (s pat : List Char) (i : Nat), findSub s pat = some i → i ≤ s.length := by
  intro s
  induction s with
  | nil =>
    intro pat i h
    by_cases hm : matchesAt pat [] = true
    · simp [findSub, hm] at h
      omega
    · simp [findSub, hm] at h
  | cons c rest ih =>
    intro pat i h
    by_cases hm : matchesAt pat (c :: rest) = true
    · simp [findSub, hm] at h
      omega
    · simp [findSub, hm] at h
      obtain ⟨j, hj, hji⟩ := h
      have := ih pat j hj
      simp only [List.length_cons]
      omega

/-- A position returned by `findSub` is an occurrence. -/
theorem findSub_occursAt :
    ∀ (s pat : List Char) (i : Nat), findSub s pat = some i → occursAt s pat i = true := by
  intro s
  induction s with
  | nil =>
    intro pat i h
    by_cases hm : matchesAt pat [] = true
    · simp [findSub, hm] at h
      subst h
      simpa [occursAt] using hm
    · simp [findSub, hm] at h
  | cons c rest ih =>
    intro pat i h
    by_cases hm : matchesAt pat (c :: rest) = true
    · simp [findSub, hm] at h
      subst h
      simpa [occursAt] using hm
    · simp [findSub, hm] at h
      obtain ⟨j, hj, hji⟩ := h
      subst hji
      have := ih pat j hj
      simpa [occursAt, List.drop_succ_cons] using this

/-- A position returned by `findSub` is the first occurrence. -/
theorem findSub_least :
    ∀ (s pat : List Char) (i : Nat), findSub s pat = some i →
      ∀ j, j < i → occursAt s pat j = false := by
  intro s
  induction s with
  | nil =>
    intro pat i h j hj
    by_cases hm : matchesAt pat [] = true
    · simp [findSub, hm] at h
      omega
    · simp [findSub, hm] at h
  | cons c rest ih =>
    intro pat i h j hj
    by_cases hm : matchesAt pat (c :: rest) = true
    · simp [findSub, hm] at h
      omega
    · simp [findSub, hm] at h
      obtain ⟨j2, hj2, hji⟩ := h
      subst hji
      cases j with
      | zero =>
        simpa [occursAt] using hm
      | succ k =>
        have := ih pat j2 hj2 k (by omega)
        simpa [occursAt, List.drop_succ_cons] using this

/-- A `Nat` slice bound within range normalises to itself. -/
theorem pyIdx_natCast (n i : Nat) (h : i ≤ n) : pyIdx n (i : Int) = i := by
  unfold pyIdx
  rw [if_neg (by omega)]
  omega

/-- C7: the report pipeline removes every newline and comma (and nothing
else); when both markers occur, the findings section is the stripped text from
the first occurrence of `FINDINGS:` up to the first occurrence of
`IMPRESSION:`, and the impression section is everything from `IMPRESSION:` to
the end; a missing (NA) impression is replaced by the findings text; when both
are missing the study is dropped. -/
theorem c7_report_pipeline :
    (∀ (s pat : List Char) (i : Nat), findSub s pat = some i →
      occursAt s pat i = true ∧ ∀ j, j < i → occursAt s pat j = false) ∧
    (∀ text : List Char,
      List.Sublist (stripNC text) text ∧
      (∀ c ∈ stripNC text, c ≠ '\n' ∧ c ≠ ',') ∧
      (∀ c ∈ text, c ≠ '\n' → c ≠ ',' → c ∈ stripNC text)) ∧
    (∀ (text : List Char) (iF iI : Nat),
      findSub (stripNC text) fMark = some iF →
      findSub (stripNC text) iMark = some iI →
      parseReport text =
        (((stripNC text).take iI).drop iF, (stripNC text).drop iI)) ∧
    (∀ findings impressions : List Char,
      naField impressions = true → naField findings = false →
      fillImpression findings impressions = some findings) ∧
    (∀ findings impressions : List Char,
      naField impressions = false →
      fillImpression findings impressions = some impressions) ∧
    (∀ findings impressions : List Char,
      naField impressions = true → naField findings = true →
      fillImpression findings impressions = none ∧
      keepStudy findings impressions = false) := by
  refine ⟨?_, ?_, ?_, ?_, ?_, ?_⟩
  · intro s pat i h
    exact ⟨findSub_occursAt s pat i h, findSub_least s pat i h⟩
  · intro text
    refine ⟨List.filter_sublist text, ?_, ?_⟩
    · intro c hc
      have := List.of_mem_filter hc
      simpa [decide_eq_true_eq] using this
    · intro c hc h1 h2
      refine List.mem_filter.mpr ⟨hc, ?_⟩
      simp [h1, h2]
  · intro text iF iI hF hI
    have hFle := findSub_le_length (stripNC text) fMark iF hF
    have hIle := findSub_le_length (stripNC text) iMark iI hI
    simp only [parseReport, pyFind, hF, hI, pySlice]
    rw [pyIdx_natCast _ _ hFle, pyIdx_natCast _ _ hIle,
        pyIdx_natCast _ _ (le_refl (stripNC text).length), List.take_length]
  · intro findings impressions h1 h2
    simp [fillImpression, h1, h2]
  · intro findings impressions h1
    simp [fillImpression, h1]
  · intro findings impressions h1 h2
    simp [fillImpression, keepStudy, h1, h2]

/-- Witness for C7 at a concrete report text (both markers present), a
concrete missing impression with findings present, and a concrete study with
both sections missing. -/
theorem c7_witness :
    parseReport "FINDINGS:AIMPRESSION:B".toList =
      (((stripNC "FINDINGS:AIMPRESSION:B".toList).take 10).drop 0,
       (stripNC "FINDINGS:AIMPRESSION:B".toList).drop 10) ∧
    fillImpression "lungs clear".toList "".toList = some "lungs clear".toList ∧
    (fillImpression "".toList ".".toList = none ∧
     keepStudy "".toList ".".toList = false) :=
  ⟨c7_report_pipeline.2.2.1 "FINDINGS:AIMPRESSION:B".toList 0 10 (by decide) (by decide),
   c7_report_pipeline.2.2.2.1 "lungs clear".toList "".toList (by decide) (by decide),
   c7_report_pipeline.2.2.2.2.2 "".toList ".".toList (by decide) (by decide)⟩

/-- When neither id cell equals `1.0`, the row-wide flagged set (what the code
computes) coincides with the flagged set over the label columns only (what the
claim describes): the appended `label` column holds `0` and cannot be flagged. -/
theorem flaggedColumns_eq_of_ids (labelNames : List String) (r : ChexpertRow)
    (h1 : ¬ r.subject_id = some 1) (h2 : ¬ r.study_id = some 1)
    (hlen : labelNames.length = r.labelCells.length) :
    flaggedColumns labelNames r = labelFlaggedColumns labelNames r := by
  unfold flaggedColumns labelFlaggedColumns chexpertColumns rowCells
  rw [List.zip_cons_cons, List.zip_cons_cons, List.zip_append hlen]
  simp [List.filter_cons, List.filter_append, cellIsOne, h1, h2]

/-- C8, counterexample to the claim as stated: a row of the weak-label export
with no label column flagged (all 14 label cells `0`) but `subject_id = 1.0`
receives the derived label `subject_id`, not `No Finding`, because the code
scans the whole row (`labels_chexpert.iloc[i,:] == 1.0`), ids included. -/
theorem c8_counterexample :
    labelFlaggedColumns chexpertLabelNames
      { subject_id := some 1, study_id := some 2,
        labelCells := List.replicate 14 (some 0) } = [] ∧
    deriveLabel chexpertLabelNames
      { subject_id := some 1, study_id := some 2,
        labelCells := List.replicate 14 (some 0) } 0 = "subject_id" := by
  constructor
  · decide
  · decide

/-- C8 (amended): the flagged set is computed over every cell of the row, id
columns included; provided neither id cell equals `1.0`, the derived label is
as the claim states: the unique flagged label column when exactly one is
flagged, a uniformly drawn member of the flagged set when several are (the
draw modelled by an arbitrary index reduced modulo the flagged count, which
always lands in the flagged set), and the literal `No Finding` when none is. -/
theorem c8_label_derivation :
    ∀ (labelNames : List String) (r : ChexpertRow) (rand : Nat),
      ¬ r.subject_id = some 1 → ¬ r.study_id = some 1 →
      labelNames.length = r.labelCells.length →
      (((labelFlaggedColumns labelNames r).length = 1 →
        deriveLabel labelNames r rand = (labelFlaggedColumns labelNames r).getD 0 "") ∧
       (1 < (labelFlaggedColumns labelNames r).length →
        deriveLabel labelNames r rand =
          (labelFlaggedColumns labelNames r).getD
            (rand % (labelFlaggedColumns labelNames r).length) "" ∧
        deriveLabel labelNames r rand ∈ labelFlaggedColumns labelNames r) ∧
       (labelFlaggedColumns labelNames r = [] →
        deriveLabel labelNames r rand = "No Finding")) := by
  intro labelNames r rand h1 h2 hlen
  have heq := flaggedColumns_eq_of_ids labelNames r h1 h2 hlen
  refine ⟨fun hone => ?_, fun hgt => ?_, fun hnil => ?_⟩
  · simp [deriveLabel, heq, hone]
  · have hne1 : ¬ (labelFlaggedColumns labelNames r).length = 1 := by omega
    have hpos : 0 < (labelFlaggedColumns labelNames r).length := by omega
    have hlt : rand % (labelFlaggedColumns labelNames r).length <
        (labelFlaggedColumns labelNames r).length := Nat.mod_lt _ hpos
    constructor
    · simp [deriveLabel, heq, hne1, hgt]
    · simp only [deriveLabel, heq, if_neg hne1, if_pos hgt]
      rw [List.getD_eq_getElem _ _ hlt]
      exact List.getElem_mem hlt
  · simp [deriveLabel, heq, hnil]

/-- Witness for C8 at concrete rows: two flagged label columns (uniform pick),
exactly one flagged label column, and none flagged. -/
theorem c8_witness :
    (deriveLabel chexpertLabelNames
        { subject_id := some 123, study_id := some 456,
          labelCells := [some 1, some 0, some 1] ++ List.replicate 11 (some 0) } 1 =
      (labelFlaggedColumns chexpertLabelNames
        { subject_id := some 123, study_id := some 456,
          labelCells := [some 1, some 0, some 1] ++ List.replicate 11 (some 0) }).getD
        (1 % (labelFlaggedColumns chexpertLabelNames
          { subject_id := some 123, study_id := some 456,
            labelCells := [some 1, some 0, some 1] ++ List.replicate 11 (some 0) }).length) "" ∧
     deriveLabel chexpertLabelNames
        { subject_id := some 123, study_id := some 456,
          labelCells := [some 1, some 0, some 1] ++ List.replicate 11 (some 0) } 1 ∈
      labelFlaggedColumns chexpertLabelNames
        { subject_id := some 123, study_id := some 456,
          labelCells := [some 1, some 0, some 1] ++ List.replicate 11 (some 0) }) ∧
    deriveLabel chexpertLabelNames
      { subject_id := some 123, study_id := some 456,
        labelCells := some 1 :: List.replicate 13 (some 0) } 0 =
      (labelFlaggedColumns chexpertLabelNames
        { subject_id := some 123, study_id := some 456,
          labelCells := some 1 :: List.replicate 13 (some 0) }).getD 0 "" ∧
    deriveLabel chexpertLabelNames
      { subject_id := some 123, study_id := some 456,
        labelCells := List.replicate 14 (some 0) } 0 = "No Finding" :=
  ⟨(c8_label_derivation chexpertLabelNames
      { subject_id := some 123, study_id := some 456,
        labelCells := [some 1, some 0, some 1] ++ List.replicate 11 (some 0) } 1
      (by decide) (by decide) (by decide)).2.1 (by decide),
   (c8_label_derivation chexpertLabelNames
      { subject_id := some 123, study_id := some 456,
        labelCells := some 1 :: List.replicate 13 (some 0) } 0
      (by decide) (by decide) (by decide)).1 (by decide),
   (c8_label_derivation chexpertLabelNames
      { subject_id := some 123, study_id := some 456,
        labelCells := List.replicate 14 (some 0) } 0
      (by decide) (by decide) (by decide)).2.2 (by decide)⟩
